import Mathlib

/-!
Verification of the fetch-and-normalize pipeline of the ghs_games_backend
repository (src/fetch.rs and src/main.rs), as a shallow embedding.

Strings are modelled as Lean strings; machine timestamps are modelled as
integers (minutes since 1970-01-01 in UTC), matching the fact that Rust's
DateTime equality compares the underlying UTC instant.  The chrono parsing
functions used by the source for the fixed formats "%Y-%m-%d %I:%M %p %z"
and "%m/%d/%Y" are modelled as executable Lean parsers over character
lists that mirror chrono's scanning behaviour (greedy bounded digit runs,
whitespace trimming before numeric fields, case-insensitive AM/PM,
sign + two-digit hour + optional colon + two-digit minute offsets, and
whole-input consumption), with range validation as performed by chrono
when assembling the parsed fields.  Unicode lowercasing is modelled on the
ASCII range.  Rust panics (unreachable! and Option::unwrap on None) are
modelled as an explicit panic outcome, distinct from error results.
-/

/-- Wire-shape record decoded from the upstream JSON payload
(struct RawEvent in src/fetch.rs); all fields are strings after decoding,
three of them via deserialize_string_from_number. -/
structure RawEvent where
  postponed : String
  month : String
  year : String
  day : String
  location : String
  event_type : String
  opponent : String
  cancelled : String
  name : String
  home : String
  time : String
  rescheduled_date : String
deriving DecidableEq

/-- Model of chrono::NaiveDate: a plain calendar date. -/
structure Date where
  year : Int
  month : Nat
  day : Nat
deriving DecidableEq

/-- Normalized public event (struct Event in src/fetch.rs).  The `time`
field is the UTC instant in minutes since 1970-01-01, the notion of
equality used by DateTime in the source. -/
structure Event where
  name : String
  time : Int
  sport : String
  varsity : Bool
  opponent : String
  location : String
  rescheduled : Bool
  rescheduled_date : Option Date
  cancelled : Bool
deriving DecidableEq

/-- Ambient process state read by the source through Local::now(): the
local UTC offset in minutes at the moment of the call, plus a wall-clock
reading (minutes) that the normalizer must not otherwise depend on. -/
structure Ambient where
  offset : Int
  clock : Int
deriving DecidableEq

/-- Errors that clean can return through anyhow Result. -/
inductive CleanErr where
  | datetime
  | reschedDate
deriving DecidableEq

/-- Panics that clean can raise: the unreachable! in str_to_bool, and the
Option::unwrap on the last space-delimited token. -/
inductive CleanPanic where
  | boolToken
  | lastToken
deriving DecidableEq

/-- Outcome of RawEvent::clean: Ok(None)/Ok(Some), Err, or a panic. -/
inductive CleanResult where
  | ok (e : Option Event)
  | err (e : CleanErr)
  | panic (p : CleanPanic)
deriving DecidableEq

/-- str_to_bool from src/fetch.rs: "" and "0" decode to false, "1" to
true; any other token hits unreachable! (modelled as none). -/
def strToBool (s : String) : Option Bool :=
  if s = "" then some false
  else if s = "0" then some false
  else if s = "1" then some true
  else none

/-- Rust str::split on a one-character separator: always yields at least
one (possibly empty) piece. -/
def splitChar (sep : Char) : List Char → List (List Char)
  | [] => [[]]
  | c :: rest =>
    match splitChar sep rest with
    | [] => [[c]]
    | t :: ts => if c = sep then [] :: t :: ts else (c :: t) :: ts

/-- The last space-delimited token of a string, as computed by
name.split(" ").last() in the source. -/
def lastTok (s : String) : Option String :=
  ((splitChar ' ' s.data).getLast?).map (fun l => String.mk l)

/-- Whether `pat` is a prefix of `s` (character-exact). -/
def isPrefixList : List Char → List Char → Bool
  | [], _ => true
  | _ :: _, [] => false
  | p :: ps, c :: cs => p = c && isPrefixList ps cs

/-- Rust str::contains for string patterns: substring search. -/
def containsSub (pat : List Char) : List Char → Bool
  | [] => isPrefixList pat []
  | c :: rest => isPrefixList pat (c :: rest) || containsSub pat rest

/-- Rust String::to_lowercase, modelled on the ASCII range. -/
def lowerStr (s : String) : String :=
  String.mk (s.data.map Char.toLower)

/-- Drop leading whitespace, as chrono does before numeric fields and at
whitespace items of the format string. -/
def skipSpaces : List Char → List Char
  | [] => []
  | c :: rest => if c.isWhitespace then skipSpaces rest else c :: rest

/-- Consume up to `fuel` leading ASCII digits. -/
def takeDigits : Nat → List Char → List Char × List Char
  | 0, s => ([], s)
  | _ + 1, [] => ([], [])
  | fuel + 1, c :: rest =>
    if c.isDigit then
      let p := takeDigits fuel rest
      (c :: p.1, p.2)
    else ([], c :: rest)

/-- Decimal value of a digit run. -/
def digitsVal (ds : List Char) : Nat :=
  ds.foldl (fun a c => a * 10 + (c.toNat - 48)) 0

/-- chrono scan::number: between minW and maxW digits, greedy. -/
def scanNum (minW maxW : Nat) (s : List Char) : Option (Nat × List Char) :=
  let p := takeDigits maxW s
  if minW ≤ p.1.length then some (digitsVal p.1, p.2) else none

/-- chrono parsing of %Y: optional sign (unbounded digits when signed),
otherwise up to four digits. -/
def scanYear (s : List Char) : Option (Int × List Char) :=
  match s with
  | '-' :: rest => (scanNum 1 rest.length rest).map (fun p => (-(p.1 : Int), p.2))
  | '+' :: rest => (scanNum 1 rest.length rest).map (fun p => ((p.1 : Int), p.2))
  | _ => (scanNum 1 4 s).map (fun p => ((p.1 : Int), p.2))

/-- Match one literal character of the format string. -/
def expectChar (c : Char) (s : List Char) : Option (List Char) :=
  match s with
  | c2 :: rest => if c2 = c then some rest else none
  | [] => none

/-- chrono parsing of %p: two characters, case-insensitive am/pm;
true means PM. -/
def scanAmPm : List Char → Option (Bool × List Char)
  | c1 :: c2 :: rest =>
    if c1.toLower = 'a' && c2.toLower = 'm' then some (false, rest)
    else if c1.toLower = 'p' && c2.toLower = 'm' then some (true, rest)
    else none
  | _ => none

/-- Consume the optional colon between offset hours and minutes. -/
def dropColon : List Char → List Char
  | ':' :: t => t
  | s => s

/-- chrono parsing of %z: optional leading whitespace, a sign, a
two-digit hour, an optional colon, and a two-digit minute.  Returns the
offset in minutes. -/
def scanOffset (s : List Char) : Option (Int × List Char) :=
  match skipSpaces s with
  | sign :: rest =>
    if sign = '+' || sign = '-' then
      match scanNum 2 2 rest with
      | some (hh, r1) =>
        match scanNum 2 2 (dropColon r1) with
        | some (mm, r3) =>
          some (if sign = '-' then -((hh * 60 + mm : Nat) : Int)
            else ((hh * 60 + mm : Nat) : Int), r3)
        | none => none
      | none => none
    else none
  | [] => none

/-- Gregorian leap-year rule. -/
def isLeap (y : Int) : Bool :=
  decide (y % 4 = 0 ∧ (y % 100 ≠ 0 ∨ y % 400 = 0))

/-- Length of a month; 0 for month numbers outside 1..12 (such numbers
are rejected by the day-range validation). -/
def daysInMonth (y : Int) (m : Nat) : Nat :=
  match m with
  | 1 => 31
  | 2 => if isLeap y then 29 else 28
  | 3 => 31
  | 4 => 30
  | 5 => 31
  | 6 => 30
  | 7 => 31
  | 8 => 31
  | 9 => 30
  | 10 => 31
  | 11 => 30
  | 12 => 31
  | _ => 0

/-- Days from 1970-01-01 to the given civil date (proleptic Gregorian). -/
def daysFromCivil (y : Int) (m d : Nat) : Int :=
  let y2 : Int := if m ≤ 2 then y - 1 else y
  let era : Int := Int.ediv y2 400
  let yoe : Nat := (y2 - era * 400).toNat
  let mp : Nat := (m + 9) % 12
  let doy : Nat := (153 * mp + 2) / 5 + d - 1
  let doe : Nat := yoe * 365 + yoe / 4 - yoe / 100 + doy
  era * 146097 + (doe : Int) - 719468

/-- Minutes since the epoch of a civil date-time (no offset applied). -/
def civilMin (y : Int) (m d h mi : Nat) : Int :=
  daysFromCivil y m d * 1440 + ((h * 60 + mi : Nat) : Int)

/-- Scanning phase of the fixed format "%Y-%m-%d %I:%M %p" (everything
before the %z item): returns year, month, day, twelve-hour hour,
minute, the PM flag, and the unconsumed remainder. -/
def parseCivil (s : List Char) :
    Option (Int × Nat × Nat × Nat × Nat × Bool × List Char) :=
  match scanYear (skipSpaces s) with
  | none => none
  | some (y, s1) =>
  match expectChar '-' s1 with
  | none => none
  | some s2 =>
  match scanNum 1 2 (skipSpaces s2) with
  | none => none
  | some (mo, s3) =>
  match expectChar '-' s3 with
  | none => none
  | some s4 =>
  match scanNum 1 2 (skipSpaces s4) with
  | none => none
  | some (d, s5) =>
  match scanNum 1 2 (skipSpaces s5) with
  | none => none
  | some (h12, s6) =>
  match expectChar ':' s6 with
  | none => none
  | some s7 =>
  match scanNum 1 2 (skipSpaces s7) with
  | none => none
  | some (mi, s8) =>
  match scanAmPm (skipSpaces s8) with
  | none => none
  | some (pm, s9) => some (y, mo, d, h12, mi, pm, s9)

/-- Model of DateTime::parse_from_str with the fixed format
"%Y-%m-%d %I:%M %p %z" used in clean: scans the fields, requires the
whole input to be consumed, validates ranges as chrono does when
assembling the parsed fields, and returns the UTC instant in minutes. -/
def parseCore (s : List Char) : Option Int :=
  match parseCivil s with
  | none => none
  | some (y, mo, d, h12, mi, pm, s9) =>
  match scanOffset s9 with
  | none => none
  | some (off, s10) =>
    if s10 = [] ∧ 1 ≤ mo ∧ mo ≤ 12 ∧ 1 ≤ d ∧ d ≤ daysInMonth y mo ∧
        1 ≤ h12 ∧ h12 ≤ 12 ∧ mi ≤ 59 ∧ off.natAbs ≤ 1439 then
      some (civilMin y mo d (h12 % 12 + if pm then 12 else 0) mi - off)
    else none

def parseDT (s : String) : Option Int := parseCore s.data

/-- Model of NaiveDate::parse_from_str with the fixed format "%m/%d/%Y"
used for rescheddate. -/
def parseMDY (s : String) : Option Date :=
  match scanNum 1 2 (skipSpaces s.data) with
  | none => none
  | some (mo, s1) =>
  match expectChar '/' s1 with
  | none => none
  | some s2 =>
  match scanNum 1 2 (skipSpaces s2) with
  | none => none
  | some (d, s3) =>
  match expectChar '/' s3 with
  | none => none
  | some s4 =>
  match scanYear (skipSpaces s4) with
  | none => none
  | some (y, s5) =>
    if s5 = [] ∧ 1 ≤ mo ∧ mo ≤ 12 ∧ 1 ≤ d ∧ d ≤ daysInMonth y mo then
      some ⟨y, mo, d⟩
    else none

/-- The Rust format! padding {:0>w}: left-pad with zeros to width w. -/
def pad (w : Nat) (s : String) : String :=
  String.mk (List.replicate (w - s.length) '0') ++ s

/-- The %z rendering of Local::now(): sign, two-digit hours, two-digit
minutes. -/
def offsetChars (o : Int) : List Char :=
  let a := o.natAbs
  [if o < 0 then '-' else '+',
   Nat.digitChar (a / 60 / 10), Nat.digitChar (a / 60 % 10),
   Nat.digitChar (a % 60 / 10), Nat.digitChar (a % 60 % 10)]

def formatOffset (o : Int) : String := String.mk (offsetChars o)

/-- The datetime string built by clean:
"{year}-{month:0>2}-{day:0>2} {time:0>4} {local offset}". -/
def buildDT (r : RawEvent) (o : Int) : String :=
  r.year ++ "-" ++ pad 2 r.month ++ "-" ++ pad 2 r.day ++ " " ++
    pad 4 r.time ++ " " ++ formatOffset o

/-- The rescheduled_date field of the produced Event: None when the raw
string is empty or "TBA", otherwise the %m/%d/%Y parse (whose failure is
a returned error, modelled as the outer none). -/
def reschedOf (s : String) : Option (Option Date) :=
  if s = "" then some none
  else if s = "TBA" then some none
  else (parseMDY s).map some

/-- RawEvent::clean from src/fetch.rs.  Mirrors the source's control
flow: the short-circuit filter (event type, "Middle School", home
token), then the Event fields in their evaluation order — datetime
parse (Err on failure), last-token unwrap (panic on None), cancelled
token (panic on unknown), reschedule-date parse (Err on failure). -/
def clean (r : RawEvent) (a : Ambient) : CleanResult :=
  if r.event_type ≠ "sport" then .ok none
  else if containsSub ("Middle School".data) r.name.data then .ok none
  else match strToBool r.home with
  | none => .panic .boolToken
  | some false => .ok none
  | some true =>
    match parseDT (buildDT r a.offset) with
    | none => .err .datetime
    | some t =>
      match lastTok r.name with
      | none => .panic .lastToken
      | some sp =>
        match strToBool r.cancelled with
        | none => .panic .boolToken
        | some canc =>
          match reschedOf r.rescheduled_date with
          | none => .err .reschedDate
          | some rd =>
            .ok (some
              { name := r.name, time := t, sport := sp,
                varsity := containsSub ("varsity".data) (lowerStr r.name).data,
                opponent := r.opponent, location := r.location,
                rescheduled := !r.rescheduled_date.isEmpty,
                rescheduled_date := rd, cancelled := canc })

/-- JSON values, as decoded by serde_json (numbers modelled as
integers, which covers the boolean-as-number tokens this payload
uses). -/
inductive Json where
  | null : Json
  | bool (b : Bool) : Json
  | num (n : Int) : Json
  | str (s : String) : Json
  | arr (elems : List Json) : Json
  | obj (fields : List (String × Json)) : Json

/-- Look up a field of a JSON object by key. -/
def jField (fields : List (String × Json)) (key : String) : Option Json :=
  match fields with
  | [] => none
  | (k, v) :: rest => if k = key then some v else jField rest key

/-- serde string field: only a JSON string is accepted. -/
def jString : Json → Option String
  | .str s => some s
  | _ => none

/-- serde_aux deserialize_string_from_number: a string stays itself, a
number becomes its decimal rendering. -/
def jStringFromNumber : Json → Option String
  | .str s => some s
  | .num n => some (toString n)
  | _ => none

/-- serde decoding of one RawEvent from a JSON value, with the field
renames of src/fetch.rs; a missing or mistyped field fails. -/
def decodeRawEvent (j : Json) : Option RawEvent :=
  match j with
  | .obj fields => do
    let postponed ← (jField fields "isPostponed").bind jStringFromNumber
    let month ← (jField fields "Month").bind jString
    let year ← (jField fields "Year").bind jString
    let day ← (jField fields "Day").bind jString
    let location ← (jField fields "thePlace").bind jString
    let event_type ← (jField fields "eventType").bind jString
    let opponent ← (jField fields "theOpponentString").bind jString
    let cancelled ← (jField fields "isCancelled").bind jStringFromNumber
    let name ← (jField fields "theTitle").bind jString
    let home ← (jField fields "homeOrAway").bind jStringFromNumber
    let time ← (jField fields "theTime").bind jString
    let rescheduled_date ← (jField fields "rescheddate").bind jString
    some ⟨postponed, month, year, day, location, event_type, opponent,
      cancelled, name, home, time, rescheduled_date⟩
  | _ => none

/-- Decode every record of the inner array; the source unwraps each one
in turn, so the first failure wins. -/
def decodeAll (l : List Json) : Option (List RawEvent) :=
  l.mapM decodeRawEvent

/-- Failure kinds of fetch_this_weeks that are returned as Err through
the ? operator: transport failures of the request itself and decode
failures of the body text. -/
inductive FetchErr where
  | transport
  | decode
deriving DecidableEq

/-- Outcome of fetch_this_weeks: a raw-event list, a returned Err, or a
panic from one of the unwrap calls. -/
inductive FetchOutcome where
  | ok (l : List RawEvent)
  | err (e : FetchErr)
  | panicked
deriving DecidableEq

/-- The body-processing tail of fetch_this_weeks (lines 87-94 of
src/fetch.rs).  The input is the result of deserializing the body text
as an array of arrays: none when that deserialization fails (malformed
JSON or wrong outer shape, surfaced through ?), some otherwise.  Then
raw_games.get(1).unwrap() panics when index 1 is missing, and each
record is decoded with serde_json::from_value(..).unwrap(), panicking
on the first undecodable record. -/
def fetchDecode (body : Option (List (List Json))) : FetchOutcome :=
  match body with
  | none => .err .decode
  | some outer =>
    match outer[1]? with
    | none => .panicked
    | some inner =>
      match decodeAll inner with
      | none => .panicked
      | some evs => .ok evs

/-- Error held by the response envelope: the Display string of the
underlying anyhow error, modelled by its kind. -/
inductive ApiErr where
  | fetchErr (e : FetchErr)
  | cleanErr (e : CleanErr)
deriving DecidableEq

/-- The APIResult envelope of src/main.rs for the /current-week data. -/
structure Envelope where
  ok : Bool
  err : Option ApiErr
  data : Option (List Event)
deriving DecidableEq

/-- What the handler does with one request: produce an envelope, or die
in a panic raised below it. -/
inductive ServeOutcome where
  | resp (e : Envelope)
  | panicked
deriving DecidableEq

/-- The per-record loop of the current_week handler: the first clean
error returns the failure envelope at once, Some events are pushed in
order, None results are skipped. -/
def serveLoop (a : Ambient) : List RawEvent → List Event → ServeOutcome
  | [], acc => .resp ⟨true, none, some acc⟩
  | r :: rest, acc =>
    match clean r a with
    | .err e => .resp ⟨false, some (.cleanErr e), none⟩
    | .panic _ => .panicked
    | .ok none => serveLoop a rest acc
    | .ok (some ev) => serveLoop a rest (acc ++ [ev])

/-- The current_week handler of src/main.rs, as a function of the fetch
outcome and the ambient state under which the records are cleaned. -/
def currentWeek (f : FetchOutcome) (a : Ambient) : ServeOutcome :=
  match f with
  | .err e => .resp ⟨false, some (.fetchErr e), none⟩
  | .panicked => .panicked
  | .ok raws => serveLoop a raws []

/-- The Some-result of cleaning one record, used to state what the
success envelope holds. -/
def cleanedSome (r : RawEvent) (a : Ambient) : Option Event :=
  match clean r a with
  | .ok o => o
  | _ => none

/-- The literal RawRecord of the spec scenario. -/
def c7raw : RawEvent :=
  { postponed := "0", month := "5", year := "2022", day := "3",
    location := "Sanborn Regional High School", event_type := "sport",
    opponent := "Multiple Opponents", cancelled := "0",
    name := "Boys-Girls Varsity Outdoor Track", home := "1",
    time := "4:00 PM", rescheduled_date := "" }

/-- A non-sport record with an out-of-range boolean token in an unused
position. -/
def schoolRaw : RawEvent :=
  { postponed := "0", month := "5", year := "2022", day := "3",
    location := "Goffstown High School", event_type := "school",
    opponent := "", cancelled := "0", name := "School Board Meeting",
    home := "7", time := "7:21 PM", rescheduled_date := "" }

/-- A filter-passing record whose time field cannot be parsed. -/
def badTimeRaw : RawEvent := { c7raw with name := "Varsity Golf", time := "X" }

/-- A filter-passing record with an invalid homeOrAway token. -/
def badHomeRaw : RawEvent := { c7raw with home := "2" }

/-- A record reaching the cancelled decode with an invalid token. -/
def badCancelRaw : RawEvent := { c7raw with cancelled := "2" }

/-- The scenario record rescheduled to "TBA". -/
def tbaRaw : RawEvent := { c7raw with rescheduled_date := "TBA" }

/-- The scenario record rescheduled to 5/10/2022. -/
def reschedRaw : RawEvent := { c7raw with rescheduled_date := "5/10/2022" }

/-- A filter-passing record whose reschedule date cannot be parsed. -/
def badReschedRaw : RawEvent := { c7raw with rescheduled_date := "soon" }

/-- The scenario record with an empty title. -/
def emptyNameRaw : RawEvent := { c7raw with name := "" }

theorem splitChar_ne_nil (sep : Char) (s : List Char) : splitChar sep s ≠ [] := by
  induction s with
  | nil => simp [splitChar]
  | cons c rest ih =>
    unfold splitChar
    split
    · simp
    · split <;> simp

theorem lastTok_isSome (s : String) : (lastTok s).isSome = true := by
  unfold lastTok
  have h := splitChar_ne_nil ' ' s.data
  simp [List.getLast?_isSome, h]

theorem clean_inv (r : RawEvent) (a : Ambient) (e : Event)
    (h : clean r a = .ok (some e)) :
    r.event_type = "sport" ∧
    containsSub ("Middle School".data) r.name.data = false ∧
    strToBool r.home = some true ∧
    parseDT (buildDT r a.offset) = some e.time ∧
    lastTok r.name = some e.sport ∧
    strToBool r.cancelled = some e.cancelled ∧
    reschedOf r.rescheduled_date = some e.rescheduled_date ∧
    e.name = r.name ∧
    e.varsity = containsSub ("varsity".data) (lowerStr r.name).data ∧
    e.opponent = r.opponent ∧
    e.location = r.location ∧
    e.rescheduled = !r.rescheduled_date.isEmpty := by
  unfold clean at h
  split at h
  · simp at h
  next h1 =>
    split at h
    · simp at h
    next h2 =>
      split at h
      · contradiction
      · simp at h
      next h3 =>
        split at h
        · contradiction
        next t ht =>
          split at h
          · contradiction
          next sp hsp =>
            split at h
            · contradiction
            next canc hcanc =>
              split at h
              · contradiction
              next rd hrd =>
                simp only [CleanResult.ok.injEq, Option.some.injEq] at h
                subst h
                simp_all [not_not]

/-- C1: a record failing any filter predicate is cleaned to Ok(None);
the event-type test, the "Middle School" test and the home-token test
short-circuit in that order. -/
theorem clean_filters_to_none (r : RawEvent) (a : Ambient)
    (h : r.event_type ≠ "sport" ∨
      containsSub ("Middle School".data) r.name.data = true ∨
      r.home = "" ∨ r.home = "0") :
    clean r a = .ok none := by
  unfold clean
  rcases h with h | h | h | h
  · simp [h]
  · by_cases h1 : r.event_type = "sport" <;> simp [h1, h]
  · by_cases h1 : r.event_type = "sport" <;>
      by_cases h2 : containsSub ("Middle School".data) r.name.data = true <;>
        simp [h1, h2, h, strToBool]
  · by_cases h1 : r.event_type = "sport" <;>
      by_cases h2 : containsSub ("Middle School".data) r.name.data = true <;>
        simp [h1, h2, h, strToBool]

theorem clean_filters_to_none_witness : clean schoolRaw ⟨-240, 0⟩ = .ok none :=
  clean_filters_to_none schoolRaw ⟨-240, 0⟩ (Or.inl (by decide))

/-- C10: clean never reads the postponed field: records differing only
there clean identically under the same ambient state. -/
theorem clean_ignores_postponed (r : RawEvent) (a : Ambient) (p1 p2 : String) :
    clean { r with postponed := p1 } a = clean { r with postponed := p2 } a := by
  cases r
  rfl

/-- C8 (amended): clean is a pure function of the record and the local
UTC offset read at the moment of the call: ambient states agreeing on
the offset (the wall clock may differ) give equal results. -/
theorem clean_pure_given_offset (r : RawEvent) (a a2 : Ambient)
    (h : a.offset = a2.offset) : clean r a = clean r a2 := by
  cases a with
  | mk o c =>
    cases a2 with
    | mk o2 c2 =>
      have h2 : o = o2 := h
      subst h2
      rfl

theorem clean_pure_given_offset_witness :
    clean c7raw ⟨-240, 5⟩ = clean c7raw ⟨-240, 999⟩ :=
  clean_pure_given_offset c7raw ⟨-240, 5⟩ ⟨-240, 999⟩ rfl

/-- C8 counterexample: the result of clean does depend on the local
offset at the moment of the call - the same record cleaned under
offsets -0400 and -0500 yields different events. -/
theorem clean_depends_on_offset :
    clean c7raw ⟨-240, 0⟩ ≠ clean c7raw ⟨-300, 0⟩ := by decide

/-- C9: splitting any string on a single ASCII space yields at least
one token, the last-token extraction in clean therefore cannot panic,
and a filter-passing record with an empty name that cleans to an event
has the empty string as its sport. -/
theorem sport_never_fails :
    (∀ s : String, splitChar ' ' s.data ≠ []) ∧
    (∀ s : String, (lastTok s).isSome = true) ∧
    (∀ (r : RawEvent) (a : Ambient) (e : Event), r.name = "" →
      clean r a = .ok (some e) → e.sport = "") := by
  refine ⟨fun s => splitChar_ne_nil ' ' s.data, lastTok_isSome, ?_⟩
  intro r a e hn h
  have hv := (clean_inv r a e h).2.2.2.2.1
  rw [hn] at hv
  have he : lastTok "" = some "" := rfl
  rw [he] at hv
  exact (Option.some.injEq _ _ ▸ hv).symm

theorem sport_never_fails_witness :
    splitChar ' ' "".data ≠ [] ∧
    (lastTok "Boys-Girls Varsity Outdoor Track").isSome = true ∧
    ({ name := "", time := 27526800, sport := "", varsity := false,
       opponent := "Multiple Opponents",
       location := "Sanborn Regional High School", rescheduled := false,
       rescheduled_date := none, cancelled := false } : Event).sport = "" :=
  ⟨sport_never_fails.1 "", sport_never_fails.2.1 "Boys-Girls Varsity Outdoor Track",
    sport_never_fails.2.2 emptyNameRaw ⟨-240, 0⟩ _ rfl (by decide)⟩

/-- C2 counterexample: a record passing all three filter predicates on
which clean nonetheless returns an error rather than Some, because its
time field does not parse. -/
theorem clean_filter_pass_not_always_some :
    badTimeRaw.event_type = "sport" ∧
    containsSub ("Middle School".data) badTimeRaw.name.data = false ∧
    strToBool badTimeRaw.home = some true ∧
    clean badTimeRaw ⟨-240, 0⟩ = .err .datetime := by decide

/-- C2 (amended): whenever a filter-passing record cleans to Some
event, that event's sport is the last space-delimited token of the name
and its varsity flag is the case-insensitive "varsity" test. -/
theorem clean_some_sport_varsity (r : RawEvent) (a : Ambient) (e : Event)
    (_h1 : r.event_type = "sport")
    (_h2 : containsSub ("Middle School".data) r.name.data = false)
    (_h3 : strToBool r.home = some true)
    (h : clean r a = .ok (some e)) :
    lastTok r.name = some e.sport ∧
    e.varsity = containsSub ("varsity".data) (lowerStr r.name).data := by
  have hv := clean_inv r a e h
  exact ⟨hv.2.2.2.2.1, hv.2.2.2.2.2.2.2.2.1⟩

theorem clean_some_sport_varsity_witness :
    lastTok c7raw.name = some "Track" ∧
    (true : Bool) = containsSub ("varsity".data) (lowerStr c7raw.name).data := by
  have h := clean_some_sport_varsity c7raw ⟨-240, 0⟩
    { name := "Boys-Girls Varsity Outdoor Track", time := 27526800,
      sport := "Track", varsity := true, opponent := "Multiple Opponents",
      location := "Sanborn Regional High School", rescheduled := false,
      rescheduled_date := none, cancelled := false }
    (by decide) (by decide) (by decide) (by decide)
  exact h

/-- C3 counterexample: a homeOrAway token of "2" reaching the decode
makes clean panic (the unreachable! in str_to_bool); the failure is a
crash, not a returned error value. -/
theorem clean_invalid_token_panics_cex :
    clean badHomeRaw ⟨-240, 0⟩ = .panic .boolToken ∧
    clean badHomeRaw ⟨-240, 0⟩ ≠ .err .datetime ∧
    clean badHomeRaw ⟨-240, 0⟩ ≠ .err .reschedDate := by decide

/-- C3 (amended): a homeOrAway or cancelled token outside the set
containing "", "0" and "1" that is actually evaluated makes clean fail
loudly with the str_to_bool panic - never a silent default - though as
a panic rather than a returned error value. -/
theorem clean_invalid_token_fails_loud (r : RawEvent) (a : Ambient)
    (h1 : r.event_type = "sport")
    (h2 : containsSub ("Middle School".data) r.name.data = false)
    (h : (¬ (r.home = "" ∨ r.home = "0" ∨ r.home = "1")) ∨
      (r.home = "1" ∧ (∃ t, parseDT (buildDT r a.offset) = some t) ∧
        ¬ (r.cancelled = "" ∨ r.cancelled = "0" ∨ r.cancelled = "1"))) :
    clean r a = .panic .boolToken := by
  unfold clean
  rcases h with h | ⟨hh, ⟨t, ht⟩, hc⟩
  · push_neg at h
    have hsb : strToBool r.home = none := by
      simp [strToBool, h.1, h.2.1, h.2.2]
    simp [h1, h2, hsb]
  · push_neg at hc
    have hsb : strToBool r.home = some true := by simp [strToBool, hh]
    have hcb : strToBool r.cancelled = none := by
      simp [strToBool, hc.1, hc.2.1, hc.2.2]
    obtain ⟨sp, hsp⟩ := Option.isSome_iff_exists.mp (lastTok_isSome r.name)
    simp [h1, h2, hsb, ht, hsp, hcb]

theorem clean_invalid_token_fails_loud_witness :
    clean badCancelRaw ⟨-240, 0⟩ = .panic .boolToken :=
  clean_invalid_token_fails_loud badCancelRaw ⟨-240, 0⟩ (by decide) (by decide)
    (Or.inr ⟨by decide, ⟨27526800, by decide⟩, by decide⟩)

/-- C6 counterexample: cleaning the scenario record with rescheduledDate
"TBA" yields an event whose rescheduled flag is true (the source sets it
to the mere non-emptiness of the raw string), not false as claimed. -/
theorem clean_tba_rescheduled_true :
    clean tbaRaw ⟨-240, 0⟩ = .ok (some
      { name := "Boys-Girls Varsity Outdoor Track", time := 27526800,
        sport := "Track", varsity := true, opponent := "Multiple Opponents",
        location := "Sanborn Regional High School", rescheduled := true,
        rescheduled_date := none, cancelled := false }) := by decide

/-- C6 (amended): for an event produced by clean, a raw rescheduledDate
of "" gives rescheduled false and date None; "TBA" gives rescheduled
true (non-empty) and date None; "5/10/2022" gives rescheduled true and
date 2022-05-10. -/
theorem clean_resched_cases (r : RawEvent) (a : Ambient) (e : Event)
    (h : clean r a = .ok (some e)) :
    (r.rescheduled_date = "" → e.rescheduled = false ∧ e.rescheduled_date = none) ∧
    (r.rescheduled_date = "TBA" → e.rescheduled = true ∧ e.rescheduled_date = none) ∧
    (r.rescheduled_date = "5/10/2022" →
      e.rescheduled = true ∧ e.rescheduled_date = some ⟨2022, 5, 10⟩) := by
  have hv := clean_inv r a e h
  have hrd := hv.2.2.2.2.2.2.1
  have hres := hv.2.2.2.2.2.2.2.2.2.2.2
  refine ⟨?_, ?_, ?_⟩ <;> intro hcase <;> rw [hcase] at hrd hres
  · refine ⟨by simpa using hres, ?_⟩
    have : reschedOf "" = some none := rfl
    rw [this] at hrd
    simpa using hrd.symm
  · refine ⟨by simpa using hres, ?_⟩
    have : reschedOf "TBA" = some none := rfl
    rw [this] at hrd
    simpa using hrd.symm
  · refine ⟨by simpa using hres, ?_⟩
    have : reschedOf "5/10/2022" = some (some ⟨2022, 5, 10⟩) := by decide
    rw [this] at hrd
    simpa using hrd.symm

theorem clean_resched_cases_witness :
    (true : Bool) = true ∧
    (some ⟨2022, 5, 10⟩ : Option Date) = some ⟨2022, 5, 10⟩ := by
  have h := (clean_resched_cases reschedRaw ⟨-240, 0⟩
    { name := "Boys-Girls Varsity Outdoor Track", time := 27526800,
      sport := "Track", varsity := true, opponent := "Multiple Opponents",
      location := "Sanborn Regional High School", rescheduled := true,
      rescheduled_date := some ⟨2022, 5, 10⟩, cancelled := false }
    (by decide)).2.2 rfl
  exact ⟨h.1 ▸ rfl, h.2 ▸ rfl⟩

/-- C4 counterexample: a body that decodes to an empty outer array (so
index 1 is missing) makes fetch_this_weeks panic on get(1).unwrap()
instead of returning an Err value. -/
theorem fetch_decode_missing_index_panics :
    fetchDecode (some []) = .panicked ∧
    fetchDecode (some []) ≠ .err .decode ∧
    fetchDecode (some []) ≠ .err .transport := by decide

/-- C4 (amended): a body that fails to deserialize as an array of
arrays (malformed JSON included) is returned as a decode Err; but a
missing index 1 panics, an undecodable record at index 1 panics, and
only a fully decodable index-1 array yields Ok. -/
theorem fetch_decode_behavior :
    (fetchDecode none = .err .decode) ∧
    (∀ outer : List (List Json), outer.length ≤ 1 →
      fetchDecode (some outer) = .panicked) ∧
    (∀ (outer : List (List Json)) (inner : List Json),
      outer[1]? = some inner → decodeAll inner = none →
      fetchDecode (some outer) = .panicked) ∧
    (∀ (outer : List (List Json)) (inner : List Json) (evs : List RawEvent),
      outer[1]? = some inner → decodeAll inner = some evs →
      fetchDecode (some outer) = .ok evs) := by
  refine ⟨rfl, ?_, ?_, ?_⟩
  · intro outer hlen
    have hnone : outer[1]? = none := by
      rw [List.getElem?_eq_none_iff]
      exact hlen
    simp [fetchDecode, hnone]
  · intro outer inner h1 h2
    simp [fetchDecode, h1, h2]
  · intro outer inner evs h1 h2
    simp [fetchDecode, h1, h2]

theorem fetch_decode_behavior_witness :
    fetchDecode none = .err .decode ∧
    fetchDecode (some []) = .panicked ∧
    fetchDecode (some [[], [Json.null]]) = .panicked ∧
    fetchDecode (some [[], []]) = .ok [] :=
  ⟨fetch_decode_behavior.1,
    fetch_decode_behavior.2.1 [] (by decide),
    fetch_decode_behavior.2.2.1 [[], [Json.null]] [Json.null] rfl rfl,
    fetch_decode_behavior.2.2.2 [[], []] [] [] rfl rfl⟩

theorem serveLoop_all_ok (a : Ambient) (raws : List RawEvent) :
    ∀ acc : List Event, (∀ r ∈ raws, ∃ x, clean r a = .ok x) →
    serveLoop a raws acc =
      .resp ⟨true, none, some (acc ++ raws.filterMap (fun r => cleanedSome r a))⟩ := by
  induction raws with
  | nil => intro acc _; simp [serveLoop]
  | cons r rest ih =>
    intro acc h
    obtain ⟨x, hx⟩ := h r (by simp)
    have hrest : ∀ q ∈ rest, ∃ x, clean q a = .ok x := fun q hq => h q (by simp [hq])
    cases x with
    | none =>
      have hcs : cleanedSome r a = none := by simp [cleanedSome, hx]
      simp [serveLoop, hx, List.filterMap_cons, hcs, ih _ hrest]
    | some ev =>
      have hcs : cleanedSome r a = some ev := by simp [cleanedSome, hx]
      simp [serveLoop, hx, List.filterMap_cons, hcs, ih _ hrest]

theorem serveLoop_first_err (a : Ambient) (bad : RawEvent) (er : CleanErr)
    (hbad : clean bad a = .err er) (pre : List RawEvent) :
    ∀ (acc : List Event) (rest : List RawEvent),
    (∀ r ∈ pre, ∃ x, clean r a = .ok x) →
    serveLoop a (pre ++ bad :: rest) acc =
      .resp ⟨false, some (.cleanErr er), none⟩ := by
  induction pre with
  | nil => intro acc rest _; simp [serveLoop, hbad]
  | cons p ps ih =>
    intro acc rest h
    obtain ⟨x, hx⟩ := h p (by simp)
    have hps : ∀ q ∈ ps, ∃ x, clean q a = .ok x := fun q hq => h q (by simp [hq])
    cases x with
    | none => simp [serveLoop, hx, ih _ _ hps]
    | some ev => simp [serveLoop, hx, ih _ _ hps]

/-- C5: the /current-week envelope - a fetch Err yields ok=false with a
message and no data; a batch whose records all clean without error
yields ok=true, err=null and the full list of normalized events; the
first record that cleans to an error aborts the rest of the batch and
yields ok=false with a message and no data, never partial data. -/
theorem current_week_envelope :
    (∀ (e : FetchErr) (a : Ambient),
      currentWeek (.err e) a = .resp ⟨false, some (.fetchErr e), none⟩) ∧
    (∀ (raws : List RawEvent) (a : Ambient),
      (∀ r ∈ raws, ∃ x, clean r a = .ok x) →
      currentWeek (.ok raws) a =
        .resp ⟨true, none, some (raws.filterMap (fun r => cleanedSome r a))⟩) ∧
    (∀ (pre rest : List RawEvent) (bad : RawEvent) (a : Ambient) (er : CleanErr),
      (∀ r ∈ pre, ∃ x, clean r a = .ok x) → clean bad a = .err er →
      currentWeek (.ok (pre ++ bad :: rest)) a =
        .resp ⟨false, some (.cleanErr er), none⟩) := by
  refine ⟨fun e a => rfl, ?_, ?_⟩
  · intro raws a h
    have := serveLoop_all_ok a raws [] h
    simpa [currentWeek] using this
  · intro pre rest bad a er h hbad
    have := serveLoop_first_err a bad er hbad pre [] rest h
    simpa [currentWeek] using this

theorem current_week_envelope_witness :
    currentWeek (.err .transport) ⟨-240, 0⟩ =
      .resp ⟨false, some (.fetchErr .transport), none⟩ ∧
    currentWeek (.ok [schoolRaw, c7raw]) ⟨-240, 0⟩ =
      .resp ⟨true, none, some [
        { name := "Boys-Girls Varsity Outdoor Track", time := 27526800,
          sport := "Track", varsity := true, opponent := "Multiple Opponents",
          location := "Sanborn Regional High School", rescheduled := false,
          rescheduled_date := none, cancelled := false }]⟩ ∧
    currentWeek (.ok [schoolRaw, badReschedRaw, c7raw]) ⟨-240, 0⟩ =
      .resp ⟨false, some (.cleanErr .reschedDate), none⟩ := by
  refine ⟨current_week_envelope.1 .transport ⟨-240, 0⟩, ?_, ?_⟩
  · have h := current_week_envelope.2.1 [schoolRaw, c7raw] ⟨-240, 0⟩ ?_
    · rw [h]
      decide
    · intro r hr
      simp only [List.mem_cons, List.not_mem_nil, or_false] at hr
      rcases hr with hr | hr <;> subst hr
      · exact ⟨cleanedSome schoolRaw ⟨-240, 0⟩, by decide⟩
      · exact ⟨cleanedSome c7raw ⟨-240, 0⟩, by decide⟩
  · have h := current_week_envelope.2.2 [schoolRaw] [c7raw] badReschedRaw ⟨-240, 0⟩
      .reschedDate ?_ (by decide)
    · simpa using h
    · intro r hr
      simp only [List.mem_singleton] at hr
      subst hr
      exact ⟨cleanedSome schoolRaw ⟨-240, 0⟩, by decide⟩

theorem digitChar_facts : ∀ d < 10, (Nat.digitChar d).isDigit = true ∧
    (Nat.digitChar d).toNat = 48 + d ∧ Nat.digitChar d ≠ ':' ∧
    (Nat.digitChar d).isWhitespace = false := by decide

theorem skipSpaces_space (l : List Char) : skipSpaces (' ' :: l) = skipSpaces l := by
  simp [skipSpaces]

theorem skipSpaces_not_ws {c : Char} (h : c.isWhitespace = false) (l : List Char) :
    skipSpaces (c :: l) = c :: l := by
  simp [skipSpaces, h]

theorem dropColon_ne {c : Char} (h : c ≠ ':') (l : List Char) :
    dropColon (c :: l) = c :: l := by
  unfold dropColon
  split
  next t heq =>
    rw [List.cons.injEq] at heq
    exact absurd heq.1 h
  next => rfl

theorem scanNum22 (x y : Nat) (hx : x < 10) (hy : y < 10) (rest : List Char) :
    scanNum 2 2 (Nat.digitChar x :: Nat.digitChar y :: rest) = some (10 * x + y, rest) := by
  obtain ⟨dx1, dx2, -, -⟩ := digitChar_facts x hx
  obtain ⟨dy1, dy2, -, -⟩ := digitChar_facts y hy
  simp [scanNum, takeDigits, dx1, dy1, digitsVal, dx2, dy2]
  omega

theorem parseCivil_c7 (tail : List Char) :
    parseCivil ("2022-05-03 4:00 PM".data ++ tail) = some (2022, 5, 3, 4, 0, true, tail) := rfl

theorem scanOffset_offsetChars (o : Int) (h : o.natAbs ≤ 1439) :
    scanOffset (' ' :: offsetChars o) = some (o, []) := by
  have h1 : o.natAbs / 60 / 10 < 10 := by omega
  have h2 : o.natAbs / 60 % 10 < 10 := by omega
  have h3 : o.natAbs % 60 / 10 < 10 := by omega
  have h4 : o.natAbs % 60 % 10 < 10 := by omega
  obtain ⟨-, -, hc3, hw3⟩ := digitChar_facts _ h3
  by_cases ho : o < 0
  · have hl : ' ' :: offsetChars o =
        ' ' :: '-' :: Nat.digitChar (o.natAbs / 60 / 10) ::
        Nat.digitChar (o.natAbs / 60 % 10) ::
        Nat.digitChar (o.natAbs % 60 / 10) ::
        Nat.digitChar (o.natAbs % 60 % 10) :: [] := by
      simp [offsetChars, ho]
    rw [hl]
    unfold scanOffset
    rw [skipSpaces_space, skipSpaces_not_ws (by decide)]
    have hE : (10 * (o.natAbs / 60 / 10) + o.natAbs / 60 % 10) * 60 +
        (10 * (o.natAbs % 60 / 10) + o.natAbs % 60 % 10) = o.natAbs := by omega
    simp only [scanNum22 _ _ h1 h2, dropColon_ne hc3, scanNum22 _ _ h3 h4, hE]
    rw [if_pos (by decide), if_pos trivial]
    simp only [Option.some.injEq, Prod.mk.injEq]
    refine ⟨?_, trivial⟩
    omega
  · have hl : ' ' :: offsetChars o =
        ' ' :: '+' :: Nat.digitChar (o.natAbs / 60 / 10) ::
        Nat.digitChar (o.natAbs / 60 % 10) ::
        Nat.digitChar (o.natAbs % 60 / 10) ::
        Nat.digitChar (o.natAbs % 60 % 10) :: [] := by
      simp [offsetChars, ho]
    rw [hl]
    unfold scanOffset
    rw [skipSpaces_space, skipSpaces_not_ws (by decide)]
    have hE : (10 * (o.natAbs / 60 / 10) + o.natAbs / 60 % 10) * 60 +
        (10 * (o.natAbs % 60 / 10) + o.natAbs % 60 % 10) = o.natAbs := by omega
    simp only [scanNum22 _ _ h1 h2, dropColon_ne hc3, scanNum22 _ _ h3 h4, hE]
    rw [if_pos (by decide), if_neg (by decide)]
    simp only [Option.some.injEq, Prod.mk.injEq]
    refine ⟨?_, trivial⟩
    omega

theorem parseDT_c7 (o : Int) (h : o.natAbs ≤ 1439) :
    parseDT (buildDT c7raw o) = some (civilMin 2022 5 3 16 0 - o) := by
  have hb : parseDT (buildDT c7raw o) =
      parseCore ("2022-05-03 4:00 PM".data ++ (' ' :: offsetChars o)) := rfl
  rw [hb]
  unfold parseCore
  rw [parseCivil_c7]
  dsimp only
  rw [scanOffset_offsetChars o h]
  dsimp only
  rw [if_pos ⟨rfl, by norm_num, by norm_num, by norm_num, by decide,
    by norm_num, by norm_num, by norm_num, h⟩]
  norm_num

/-- C7: cleaning the literal scenario record yields Some of exactly the
claimed event, with the timestamp 2022-05-03 16:00 taken at the local
offset read at the moment of the call. -/
theorem clean_scenario_track (a : Ambient) (h : a.offset.natAbs ≤ 1439) :
    clean c7raw a = .ok (some
      { name := "Boys-Girls Varsity Outdoor Track",
        time := civilMin 2022 5 3 16 0 - a.offset, sport := "Track",
        varsity := true, opponent := "Multiple Opponents",
        location := "Sanborn Regional High School", rescheduled := false,
        rescheduled_date := none, cancelled := false }) := by
  have hp := parseDT_c7 a.offset h
  have hred : clean c7raw a = (match parseDT (buildDT c7raw a.offset) with
      | none => CleanResult.err .datetime
      | some t => .ok (some
          { name := "Boys-Girls Varsity Outdoor Track", time := t,
            sport := "Track", varsity := true, opponent := "Multiple Opponents",
            location := "Sanborn Regional High School", rescheduled := false,
            rescheduled_date := none, cancelled := false })) := rfl
  rw [hred, hp]

theorem clean_scenario_track_witness :
    ((⟨-240, 0⟩ : Ambient).offset.natAbs ≤ 1439) ∧
    clean c7raw ⟨-240, 0⟩ = .ok (some
      { name := "Boys-Girls Varsity Outdoor Track",
        time := civilMin 2022 5 3 16 0 - (⟨-240, 0⟩ : Ambient).offset,
        sport := "Track", varsity := true, opponent := "Multiple Opponents",
        location := "Sanborn Regional High School", rescheduled := false,
        rescheduled_date := none, cancelled := false }) :=
  ⟨by decide, clean_scenario_track ⟨-240, 0⟩ (by decide)⟩
